import Mathlib

/-!
Verification of the `myo.quaternion` module: a shallow embedding of
`src/myo/quaternion.py` over real-number scalars, together with theorems
settling the specified properties of the `Quaternion` class.

Python floats are modelled as real numbers.  Operations that can raise a
Python exception (division by zero in `normalized`, the `isinstance`
guard in `__mul__`, tuple indexing in `__getitem__`, and the malformed
two-argument `math.sqrt` call in `rotation_of`) are embedded as
`Except String` computations, where `.error` carries the exception text.
-/

namespace Myo

noncomputable section

/-- Modelled from the spec: the external 3-vector collaborator type.  The
`myo.vector.Vector` source is not part of the repository snapshot; the spec
requires three numeric components `x`, `y`, `z` and a three-argument
positional constructor in that order. -/
structure Vector where
  x : ℝ
  y : ℝ
  z : ℝ

/-- Modelled from the spec: the Vector capability `dot(other) -> scalar`,
the standard Euclidean dot product of 3-vectors. -/
def Vector.dot (a b : Vector) : ℝ :=
  a.x * b.x + a.y * b.y + a.z * b.z

/-- Modelled from the spec: the Vector capability `cross(other) -> Vector`,
the standard right-handed cross product of 3-vectors. -/
def Vector.cross (a b : Vector) : Vector :=
  ⟨a.y * b.z - a.z * b.y, a.z * b.x - a.x * b.z, a.x * b.y - a.y * b.x⟩

/-- quaternion.py lines 40-49: the `Quaternion` class stores the four scalar
fields `x`, `y`, `z`, `w`, each coerced to float by the constructor. -/
structure Quaternion where
  x : ℝ
  y : ℝ
  z : ℝ
  w : ℝ

/-- quaternion.py lines 59-63: the component formula of `__mul__` (after the
`isinstance` guard has accepted `rhs` as a `Quaternion`). -/
def Quaternion.mul (self rhs : Quaternion) : Quaternion :=
  ⟨self.w * rhs.x + self.x * rhs.w + self.y * rhs.z - self.z * rhs.y,
   self.w * rhs.y - self.x * rhs.z + self.y * rhs.w + self.z * rhs.x,
   self.w * rhs.z + self.x * rhs.y - self.y * rhs.x + self.z * rhs.w,
   self.w * rhs.w - self.x * rhs.x - self.y * rhs.y - self.z * rhs.z⟩

/-- A runtime value handed to `__mul__` as its right operand: either an
actual `Quaternion`, or any other Python object (abstracted by a tag that
plays no computational role). -/
inductive PyVal where
  | quat : Quaternion → PyVal
  | other : String → PyVal

/-- quaternion.py lines 51-63: `__mul__` including the `isinstance` guard on
lines 57-58, which raises `TypeError` when `rhs` is not a `Quaternion`. -/
def Quaternion.mulObj (self : Quaternion) (rhs : PyVal) : Except String Quaternion :=
  match rhs with
  | .quat r => .ok (self.mul r)
  | .other _ => .error "TypeError: can only multiply with Quaternion"

/-- quaternion.py lines 72-77: `__invert__`, the conjugate
`(-x, -y, -z, w)`.  Line 107 aliases it as `conjugate`. -/
def Quaternion.conjugate (self : Quaternion) : Quaternion :=
  ⟨-self.x, -self.y, -self.z, self.w⟩

/-- quaternion.py lines 79-80: `__getitem__` builds the tuple
`(x, y, z, w)` and indexes it with Python sequence semantics: indices
`0..3` select components front-to-back, indices `-4..-1` select them
back-to-front (Python adds the length to a negative index), and any other
integer index raises `IndexError`.  The `getD` default 0 is never reached:
both guarded branches index inside the 4-element list. -/
def Quaternion.getItem (self : Quaternion) (index : Int) : Except String ℝ :=
  let t : List ℝ := [self.x, self.y, self.z, self.w]
  if 0 ≤ index ∧ index < 4 then .ok (t.getD index.toNat 0)
  else if -4 ≤ index ∧ index < 0 then .ok (t.getD (index + 4).toNat 0)
  else .error "IndexError: tuple index out of range"

/-- quaternion.py lines 89-94: `magnitude`, the Euclidean norm
`sqrt(x**2 + y**2 + z**2 + w**2)`. -/
def Quaternion.magnitude (self : Quaternion) : ℝ :=
  Real.sqrt (self.x ^ 2 + self.y ^ 2 + self.z ^ 2 + self.w ^ 2)

/-- quaternion.py lines 96-105: `normalized` divides every component by
`magnitude()`.  In Python, `self.x / magnitude` raises
`ZeroDivisionError` when `magnitude` is `0.0`; that fallible division is
embedded as the zero test on the divisor. -/
def Quaternion.normalized (self : Quaternion) : Except String Quaternion :=
  let magnitude := self.magnitude
  if magnitude = 0 then .error "ZeroDivisionError: float division by zero"
  else .ok ⟨self.x / magnitude, self.y / magnitude,
            self.z / magnitude, self.w / magnitude⟩

/-- quaternion.py lines 109-121: `from_axis_angle`.  It is written as an
instance method in the source but reads no state from the receiver, so it
is embedded as a plain function of `(axis, angle)`. -/
def Quaternion.from_axis_angle (axis : Vector) (angle : ℝ) : Quaternion :=
  let sincomp := Real.sin (angle / 2)
  ⟨axis.x * sincomp, axis.y * sincomp, axis.z * sincomp, Real.cos (angle / 2)⟩

/-- quaternion.py lines 123-132: `rotate` forms the sandwich product
`self * Quaternion(vec.x, vec.y, vec.z, 0) * ~self` and rebuilds a vector
of the argument's type from the vector part of the result. -/
def Quaternion.rotate (self : Quaternion) (vec : Vector) : Vector :=
  let qvec := (self.mul ⟨vec.x, vec.y, vec.z, 0⟩).mul self.conjugate
  ⟨qvec.x, qvec.y, qvec.z⟩

/-- The two-argument inverse tangent `math.atan2(y, x)`: the angle of the
point `(x, y)`, i.e. the complex argument of `x + y*i`, in `(-pi, pi]`. -/
def atan2 (y x : ℝ) : ℝ :=
  Complex.arg ⟨x, y⟩

/-- quaternion.py lines 134-139: the `roll` property. -/
def Quaternion.roll (self : Quaternion) : ℝ :=
  atan2 (2 * (self.w * self.x + self.y * self.z))
    (1 - 2 * (self.x * self.x + self.y * self.y))

/-- quaternion.py lines 141-146: the `pitch` property.  `c` is clamped into
`[-1, 1]` by `max(-1.0, min(1.0, c))` before the inverse sine. -/
def Quaternion.pitch (self : Quaternion) : ℝ :=
  let c := 2 * (self.w * self.y - self.z * self.x)
  Real.arcsin (max (-1) (min 1 c))

/-- quaternion.py lines 148-153: the `yaw` property. -/
def Quaternion.yaw (self : Quaternion) : ℝ :=
  atan2 (2 * (self.w * self.z + self.x * self.y))
    (1 - 2 * (self.y * self.y + self.z * self.z))

/-- quaternion.py lines 163-169: the `identity` factory `(0, 0, 0, 1)`. -/
def Quaternion.identity : Quaternion :=
  ⟨0, 0, 0, 1⟩

/-- quaternion.py lines 171-207: `rotation_of`.  After the
`cos_theta >= 1.0` early return (line 188), line 192 executes
`math.sqrt(source.dot(source), dest.dot(dest))`: `math.sqrt` takes exactly
one argument, so this call raises `TypeError` unconditionally, making
lines 194-207 (including the antiparallel fallback, which additionally
references the undefined name `x_ais`) unreachable.  The embedding
reproduces the code's actual behaviour. -/
def Quaternion.rotation_of (source dest : Vector) : Except String Quaternion :=
  let _cross := source.cross dest
  let cos_theta := source.dot dest
  if cos_theta ≥ 1 then .ok Quaternion.identity
  else .error "TypeError: sqrt() takes exactly one argument (2 given)"

end

/-- C1: for all quaternions `lhs = (x1, y1, z1, w1)` and
`rhs = (x2, y2, z2, w2)`, multiplication returns the Hamilton product with
components `x = w1*x2 + x1*w2 + y1*z2 - z1*y2`,
`y = w1*y2 - x1*z2 + y1*w2 + z1*x2`, `z = w1*z2 + x1*y2 - y1*x2 + z1*w2`,
`w = w1*w2 - x1*x2 - y1*y2 - z1*z2`. -/
theorem C1_mul_is_hamilton_product (lhs rhs : Quaternion) :
    lhs.mul rhs =
      ⟨lhs.w * rhs.x + lhs.x * rhs.w + lhs.y * rhs.z - lhs.z * rhs.y,
       lhs.w * rhs.y - lhs.x * rhs.z + lhs.y * rhs.w + lhs.z * rhs.x,
       lhs.w * rhs.z + lhs.x * rhs.y - lhs.y * rhs.x + lhs.z * rhs.w,
       lhs.w * rhs.w - lhs.x * rhs.x - lhs.y * rhs.y - lhs.z * rhs.z⟩ :=
  rfl

/-- C2: evaluating the code at the failing input `v = (1/2, 0, 0)`:
`rotation_of(v, v)` does not return the identity quaternion; since
`cos_theta = 1/4 < 1`, control reaches the malformed two-argument
`math.sqrt` call and the call raises `TypeError`. -/
theorem C2_rotation_of_same_small_vector_raises :
    Quaternion.rotation_of ⟨1/2, 0, 0⟩ ⟨1/2, 0, 0⟩ =
      .error "TypeError: sqrt() takes exactly one argument (2 given)" := by
  rw [Quaternion.rotation_of, if_neg]
  simp only [Vector.dot]
  norm_num

/-- C3: evaluating the code at the failing input `v = (1, 0, 0)`:
`rotation_of(v, -v)` does not return a 180-degree rotation quaternion;
since `cos_theta = -1 < 1`, control reaches the malformed two-argument
`math.sqrt` call and the call raises `TypeError` (and even past that, the
antiparallel fallback would reference the undefined name `x_ais`). -/
theorem C3_rotation_of_antiparallel_raises :
    Quaternion.rotation_of ⟨1, 0, 0⟩ ⟨-1, 0, 0⟩ =
      .error "TypeError: sqrt() takes exactly one argument (2 given)" := by
  rw [Quaternion.rotation_of, if_neg]
  simp only [Vector.dot]
  norm_num

/-- C4: rotating any vector by the identity quaternion returns the vector
unchanged: `rotate(identity(), v) = v`. -/
theorem C4_rotate_by_identity (v : Vector) :
    Quaternion.identity.rotate v = v := by
  obtain ⟨a, b, c⟩ := v
  simp only [Quaternion.rotate, Quaternion.identity, Quaternion.mul,
    Quaternion.conjugate, Vector.mk.injEq]
  refine ⟨by ring, by ring, by ring⟩

/-- C5: for every quaternion `q`, both `q * conjugate(q)` and
`conjugate(q) * q` have zero `x`, `y`, `z` components and `w` component
equal to `magnitude(q)` squared. -/
theorem C5_mul_conjugate_gives_norm_squared (q : Quaternion) :
    (q.mul q.conjugate).x = 0 ∧ (q.mul q.conjugate).y = 0 ∧
    (q.mul q.conjugate).z = 0 ∧ (q.mul q.conjugate).w = q.magnitude ^ 2 ∧
    (q.conjugate.mul q).x = 0 ∧ (q.conjugate.mul q).y = 0 ∧
    (q.conjugate.mul q).z = 0 ∧ (q.conjugate.mul q).w = q.magnitude ^ 2 := by
  have hm : q.magnitude ^ 2 = q.x ^ 2 + q.y ^ 2 + q.z ^ 2 + q.w ^ 2 :=
    Real.sq_sqrt (by positivity)
  refine ⟨?_, ?_, ?_, ?_, ?_, ?_, ?_, ?_⟩ <;>
    simp only [Quaternion.mul, Quaternion.conjugate, hm] <;> ring

/-- C6: for every quaternion of nonzero magnitude `m`, `normalized` returns
`(x/m, y/m, z/m, w/m)`; for a quaternion of zero magnitude it fails with a
division-by-zero error — the zero case is not guarded internally. -/
theorem C6_normalized_divides_or_fails (q : Quaternion) :
    (q.magnitude ≠ 0 →
      q.normalized = .ok ⟨q.x / q.magnitude, q.y / q.magnitude,
        q.z / q.magnitude, q.w / q.magnitude⟩) ∧
    (q.magnitude = 0 →
      q.normalized = .error "ZeroDivisionError: float division by zero") := by
  constructor <;> intro h <;> simp [Quaternion.normalized, h]

/-- C6 witness: `normalized` at the concrete unit quaternion `(0,0,0,1)`
(magnitude 1) and at the zero quaternion (magnitude 0). -/
theorem C6_normalized_divides_or_fails_witness :
    Quaternion.normalized ⟨0, 0, 0, 1⟩ = .ok ⟨0, 0, 0, 1⟩ ∧
    Quaternion.normalized ⟨0, 0, 0, 0⟩ =
      .error "ZeroDivisionError: float division by zero" := by
  have h1 : Quaternion.magnitude ⟨0, 0, 0, 1⟩ = 1 := by
    simp [Quaternion.magnitude]
  have h0 : Quaternion.magnitude ⟨0, 0, 0, 0⟩ = 0 := by
    simp [Quaternion.magnitude]
  refine ⟨?_, (C6_normalized_divides_or_fails ⟨0, 0, 0, 0⟩).2 h0⟩
  have hok := (C6_normalized_divides_or_fails ⟨0, 0, 0, 1⟩).1
    (by rw [h1]; exact one_ne_zero)
  rw [hok, h1]
  norm_num

/-- C7 counterexample: the claim says every integer index outside `0..3`
fails out-of-range, but Python tuple indexing accepts negative indices:
at `q = (1, 2, 3, 4)` the access `q[-1]` succeeds and returns `w = 4`. -/
theorem C7_getitem_negative_index_succeeds :
    Quaternion.getItem ⟨1, 2, 3, 4⟩ (-1) = .ok 4 := by
  rfl

/-- C7 (amended): indexed access returns the `i`-th element of
`(x, y, z, w)` for `i` in `0..3`, returns the `(i+4)`-th element for
`i` in `-4..-1` (Python negative-index semantics), and fails with an
index-out-of-range error only for `i ≥ 4` or `i < -4`. -/
theorem C7_getitem_python_semantics (q : Quaternion) :
    (q.getItem 0 = .ok q.x ∧ q.getItem 1 = .ok q.y ∧
     q.getItem 2 = .ok q.z ∧ q.getItem 3 = .ok q.w) ∧
    (∀ i : Int, -4 ≤ i → i < 0 →
      q.getItem i = .ok ([q.x, q.y, q.z, q.w].getD (i + 4).toNat 0)) ∧
    (∀ i : Int, 4 ≤ i ∨ i < -4 →
      q.getItem i = .error "IndexError: tuple index out of range") := by
  refine ⟨⟨rfl, rfl, rfl, rfl⟩, ?_, ?_⟩
  · intro i h1 h2
    rw [Quaternion.getItem, if_neg (by omega), if_pos ⟨h1, h2⟩]
  · intro i h
    rw [Quaternion.getItem, if_neg (by omega), if_neg (by omega)]

/-- C7 witness: the amended behaviour at concrete inputs — an in-range
index, a negative index, and a too-large index on `q = (1, 2, 3, 4)`. -/
theorem C7_getitem_python_semantics_witness :
    Quaternion.getItem ⟨1, 2, 3, 4⟩ 1 = .ok 2 ∧
    Quaternion.getItem ⟨1, 2, 3, 4⟩ (-4) = .ok 1 ∧
    Quaternion.getItem ⟨1, 2, 3, 4⟩ 4 =
      .error "IndexError: tuple index out of range" := by
  refine ⟨(C7_getitem_python_semantics ⟨1, 2, 3, 4⟩).1.2.1, ?_,
    (C7_getitem_python_semantics ⟨1, 2, 3, 4⟩).2.2 4 (Or.inl (by norm_num))⟩
  have h := (C7_getitem_python_semantics ⟨1, 2, 3, 4⟩).2.1 (-4)
    (by norm_num) (by norm_num)
  simpa using h

/-- C8: multiplying a quaternion by any right-hand operand that is not a
`Quaternion` fails with the invalid-argument error and produces no result
quaternion. -/
theorem C8_mul_rejects_non_quaternion (self : Quaternion) (rhs : PyVal)
    (h : ∀ q : Quaternion, rhs ≠ PyVal.quat q) :
    self.mulObj rhs = .error "TypeError: can only multiply with Quaternion" := by
  cases rhs with
  | quat q => exact absurd rfl (h q)
  | other s => rfl

/-- C8 witness: multiplying the identity quaternion by a non-Quaternion
object (a Python string, say) raises the TypeError. -/
theorem C8_mul_rejects_non_quaternion_witness :
    Quaternion.identity.mulObj (PyVal.other "some str") =
      .error "TypeError: can only multiply with Quaternion" :=
  C8_mul_rejects_non_quaternion Quaternion.identity (PyVal.other "some str")
    (by intro q hq; cases hq)

/-- C9: `pitch` equals the inverse sine applied to `2*(w*y - z*x)` clamped
into `[-1, 1]`, and that clamped argument always lies in `[-1, 1]`, so the
inverse sine is never applied outside its domain. -/
theorem C9_pitch_clamps_asin_argument (q : Quaternion) :
    q.pitch = Real.arcsin (max (-1) (min 1 (2 * (q.w * q.y - q.z * q.x)))) ∧
    -1 ≤ max (-1) (min 1 (2 * (q.w * q.y - q.z * q.x))) ∧
    max (-1) (min 1 (2 * (q.w * q.y - q.z * q.x))) ≤ 1 :=
  ⟨rfl, le_max_left _ _, max_le (by norm_num) (min_le_left _ _)⟩

/-- C10: for every axis vector of unit length (sum of squared components
equal to 1) and every angle, `from_axis_angle(axis, angle)` has magnitude
exactly 1, since `sin²(angle/2)*|axis|² + cos²(angle/2) = 1`. -/
theorem C10_from_axis_angle_is_unit (axis : Vector) (angle : ℝ)
    (h : axis.x ^ 2 + axis.y ^ 2 + axis.z ^ 2 = 1) :
    (Quaternion.from_axis_angle axis angle).magnitude = 1 := by
  have key : (axis.x * Real.sin (angle / 2)) ^ 2 +
      (axis.y * Real.sin (angle / 2)) ^ 2 +
      (axis.z * Real.sin (angle / 2)) ^ 2 + Real.cos (angle / 2) ^ 2 = 1 := by
    calc (axis.x * Real.sin (angle / 2)) ^ 2 +
        (axis.y * Real.sin (angle / 2)) ^ 2 +
        (axis.z * Real.sin (angle / 2)) ^ 2 + Real.cos (angle / 2) ^ 2
        = (axis.x ^ 2 + axis.y ^ 2 + axis.z ^ 2) * Real.sin (angle / 2) ^ 2 +
          Real.cos (angle / 2) ^ 2 := by ring
      _ = Real.sin (angle / 2) ^ 2 + Real.cos (angle / 2) ^ 2 := by
          rw [h, one_mul]
      _ = 1 := Real.sin_sq_add_cos_sq (angle / 2)
  simp only [Quaternion.magnitude, Quaternion.from_axis_angle]
  rw [key, Real.sqrt_one]

/-- C10 witness: the axis `(1, 0, 0)` has unit length and
`from_axis_angle((1,0,0), 0)` has magnitude 1. -/
theorem C10_from_axis_angle_is_unit_witness :
    (Vector.mk 1 0 0).x ^ 2 + (Vector.mk 1 0 0).y ^ 2 +
      (Vector.mk 1 0 0).z ^ 2 = 1 ∧
    (Quaternion.from_axis_angle ⟨1, 0, 0⟩ 0).magnitude = 1 :=
  ⟨by norm_num, C10_from_axis_angle_is_unit ⟨1, 0, 0⟩ 0 (by norm_num)⟩

end Myo
